import Mathlib

/-!
Verification of the Intelli_GPT multimodal retrieval core.

This file gives a shallow embedding, in Lean 4, of the score-fusion query
pipeline (`app/pipelines/query_pipeline.py`), the ingestion pipeline
(`app/pipelines/ingestion_pipeline.py`), the embedding services
(`app/services/embeddings/*.py`) and the Qdrant repository
(`app/services/vectordb_qdrant/queries.py`), and proves the behavioural
properties stated about them.

Modelling conventions:
* Python floats are idealised as rationals (`ℚ`); `np.linalg.norm`, whose
  value is an irrational square root, is passed in as a function argument
  `normOf` constrained by the hypothesis
  `(normOf v) ^ 2 = sumSq v ∧ 0 ≤ normOf v`.
* Python exceptions become `Except String` results carrying the message that
  the corresponding `raise` produces; a `try/except` block becomes a `match`
  on that result.
* External collaborators (the Gemini client, OpenCLIP encoder, S3, the Qdrant
  client transport) are function-valued parameters, so theorems quantify over
  every possible collaborator behaviour.
-/

/-! ### Small string and list utilities mirroring Python primitives -/

/-- Sum of squares of a vector; the square of its euclidean norm. -/
def sumSq (v : List ℚ) : ℚ := (v.map (fun x => x * x)).sum

/-- Python `str.strip()`: drop leading and trailing whitespace. -/
def pyStrip (s : String) : String :=
  ⟨((s.data.dropWhile Char.isWhitespace).reverse.dropWhile Char.isWhitespace).reverse⟩

/-- Python `str.lower()` (character-wise lowering, as used on error messages). -/
def pyLower (s : String) : String := ⟨s.data.map Char.toLower⟩

/-- Boolean test that the first character list is a prefix of the second. -/
def prefixOf : List Char → List Char → Bool
  | [], _ => true
  | _ :: _, [] => false
  | a :: as, b :: bs => a == b && prefixOf as bs

/-- Helper for `containsSub`: does `pat` occur inside the character list. -/
def containsSubGo (pat : List Char) : List Char → Bool
  | [] => prefixOf pat []
  | c :: rest => prefixOf pat (c :: rest) || containsSubGo pat rest

/-- Python substring containment: `containsSub s pat` models `pat in s`. -/
def containsSub (s pat : String) : Bool := containsSubGo pat.data s.data

/-! ### QueryPipeline._normalize_scores (query_pipeline.py lines 57-66) -/

/-- Minimum of a score list, as `numpy.min` over a non-empty array
(`0` is returned for the empty list, which the source never reaches
because `_normalize_scores` returns `[]` first). -/
def listMin : List ℚ → ℚ
  | [] => 0
  | s :: rest => rest.foldl min s

/-- Maximum of a score list, as `numpy.max` over a non-empty array. -/
def listMax : List ℚ → ℚ
  | [] => 0
  | s :: rest => rest.foldl max s

/-- Embedding of `QueryPipeline._normalize_scores`: min-max normalisation with
the degenerate guard `max - min <= 1e-12`, in which case every score becomes
`1.0`. -/
def normalize_scores (scores : List ℚ) : List ℚ :=
  if scores.isEmpty then []
  else if listMax scores - listMin scores ≤ 1 / 10 ^ 12 then
    scores.map (fun _ => 1)
  else
    scores.map (fun s => (s - listMin scores) / (listMax scores - listMin scores))

theorem foldl_min_le_init (l : List ℚ) (a : ℚ) : l.foldl min a ≤ a := by
  induction l generalizing a with
  | nil => simp
  | cons b l ih => exact le_trans (ih (min a b)) (min_le_left a b)

theorem foldl_min_le_mem (l : List ℚ) (a : ℚ) : ∀ x ∈ l, l.foldl min a ≤ x := by
  induction l generalizing a with
  | nil => intro x hx; simp at hx
  | cons b l ih =>
    intro x hx
    rcases List.mem_cons.mp hx with h | h
    · subst h
      exact le_trans (foldl_min_le_init l (min a x)) (min_le_right a x)
    · exact ih (min a b) x h

theorem le_foldl_max_init (l : List ℚ) (a : ℚ) : a ≤ l.foldl max a := by
  induction l generalizing a with
  | nil => simp
  | cons b l ih => exact le_trans (le_max_left a b) (ih (max a b))

theorem mem_le_foldl_max (l : List ℚ) (a : ℚ) : ∀ x ∈ l, x ≤ l.foldl max a := by
  induction l generalizing a with
  | nil => intro x hx; simp at hx
  | cons b l ih =>
    intro x hx
    rcases List.mem_cons.mp hx with h | h
    · subst h
      exact le_trans (le_max_right a x) (le_foldl_max_init l (max a x))
    · exact ih (max a b) x h

theorem listMin_le_mem (l : List ℚ) : ∀ x ∈ l, listMin l ≤ x := by
  cases l with
  | nil => intro x hx; simp at hx
  | cons b rest =>
    intro x hx
    rcases List.mem_cons.mp hx with h | h
    · subst h; exact foldl_min_le_init rest x
    · exact foldl_min_le_mem rest b x h

theorem mem_le_listMax (l : List ℚ) : ∀ x ∈ l, x ≤ listMax l := by
  cases l with
  | nil => intro x hx; simp at hx
  | cons b rest =>
    intro x hx
    rcases List.mem_cons.mp hx with h | h
    · subst h; exact le_foldl_max_init rest x
    · exact mem_le_foldl_max rest b x h

theorem normalize_scores_length (l : List ℚ) :
    (normalize_scores l).length = l.length := by
  unfold normalize_scores
  split_ifs with h0 h1
  · simp [List.isEmpty_iff.mp h0]
  · simp
  · simp

/-- Every output of min-max normalisation lies in the unit interval. -/
theorem normalize_scores_mem_bounds (l : List ℚ) :
    ∀ y ∈ normalize_scores l, 0 ≤ y ∧ y ≤ 1 := by
  intro y hy
  unfold normalize_scores at hy
  split_ifs at hy with h0 h1
  · simp at hy
  · rcases List.mem_map.mp hy with ⟨x, _, hx⟩
    subst hx
    exact ⟨zero_le_one, le_refl 1⟩
  · have hd : (0 : ℚ) < listMax l - listMin l := by
      have hpos : (0 : ℚ) < 1 / 10 ^ 12 := by norm_num
      exact lt_trans hpos (lt_of_not_le h1)
    rcases List.mem_map.mp hy with ⟨x, hxmem, hx⟩
    subst hx
    refine ⟨div_nonneg (sub_nonneg.mpr (listMin_le_mem _ x hxmem)) (le_of_lt hd), ?_⟩
    rw [div_le_one hd]
    have := mem_le_listMax _ x hxmem
    linarith

/-- In the degenerate branch every output is exactly one. -/
theorem normalize_scores_degenerate (l : List ℚ)
    (h : listMax l - listMin l ≤ 1 / 10 ^ 12) :
    ∀ y ∈ normalize_scores l, y = 1 := by
  intro y hy
  unfold normalize_scores at hy
  split_ifs at hy with h0
  · simp at hy
  · rcases List.mem_map.mp hy with ⟨x, _, hx⟩
    exact hx.symm

/-- Exact min-max arithmetic on the scenario-C scores. -/
theorem normalize_scores_scenarioC :
    normalize_scores [9 / 10, 1 / 2, 1 / 2] = [1, 0, 0] := by
  unfold normalize_scores listMin listMax
  norm_num [List.foldl, min_def, max_def]

/-- Index-wise monotonicity of normalisation (holds in both branches). -/
theorem normalize_scores_getD_mono (l : List ℚ) (i j : Nat)
    (hi : i < l.length) (hj : j < l.length)
    (hle : l.getD i 0 ≤ l.getD j 0) :
    (normalize_scores l).getD i 0 ≤ (normalize_scores l).getD j 0 := by
  unfold normalize_scores
  split_ifs with h0 h1
  · rw [List.isEmpty_iff.mp h0] at hi
    simp at hi
  · have hi' : i < (l.map (fun _ => (1 : ℚ))).length := by simpa using hi
    have hj' : j < (l.map (fun _ => (1 : ℚ))).length := by simpa using hj
    rw [List.getD_eq_getElem _ _ hi', List.getD_eq_getElem _ _ hj']
    simp
  · have hd : (0 : ℚ) < listMax l - listMin l := by
      have hpos : (0 : ℚ) < 1 / 10 ^ 12 := by norm_num
      exact lt_trans hpos (lt_of_not_le h1)
    have hi' : i < (l.map
        (fun s => (s - listMin l) / (listMax l - listMin l))).length := by simpa using hi
    have hj' : j < (l.map
        (fun s => (s - listMin l) / (listMax l - listMin l))).length := by simpa using hj
    rw [List.getD_eq_getElem _ _ hi', List.getD_eq_getElem _ _ hj']
    rw [List.getElem_map, List.getElem_map]
    rw [List.getD_eq_getElem _ _ hi, List.getD_eq_getElem _ _ hj] at hle
    have h2 : l[i] - listMin l ≤ l[j] - listMin l := by linarith
    exact div_le_div_of_nonneg_right h2 hd.le

/-- C1: min-max score normalization — for every non-empty raw score list every
normalized output lies in [0,1]; if `max - min <= 1e-12` every output is
exactly 1.0; the input `[0.9, 0.5, 0.5]` yields `[1.0, 0.0, 0.0]`; and
normalization is order-preserving for non-degenerate inputs. -/
theorem claim_C1_normalize_minmax (scores : List ℚ) (hne : scores ≠ []) :
    (∀ y ∈ normalize_scores scores, 0 ≤ y ∧ y ≤ 1) ∧
    (listMax scores - listMin scores ≤ 1 / 10 ^ 12 →
      ∀ y ∈ normalize_scores scores, y = 1) ∧
    normalize_scores [9 / 10, 1 / 2, 1 / 2] = [1, 0, 0] ∧
    (∀ i j (hi : i < scores.length) (hj : j < scores.length),
      1 / 10 ^ 12 < listMax scores - listMin scores →
      scores.get ⟨i, hi⟩ ≤ scores.get ⟨j, hj⟩ →
      (normalize_scores scores).getD i 0 ≤ (normalize_scores scores).getD j 0) := by
  refine ⟨normalize_scores_mem_bounds scores,
    fun h => normalize_scores_degenerate scores h,
    normalize_scores_scenarioC, ?_⟩
  intro i j hi hj _ hle
  apply normalize_scores_getD_mono scores i j hi hj
  rw [List.getD_eq_getElem _ _ hi, List.getD_eq_getElem _ _ hj]
  simpa [List.get_eq_getElem] using hle

/-- Witness for C1 at the concrete scenario-C input. -/
theorem claim_C1_normalize_minmax_witness :
    ([(9 : ℚ) / 10, 1 / 2, 1 / 2] ≠ []) ∧
    normalize_scores [9 / 10, 1 / 2, 1 / 2] = [1, 0, 0] ∧
    (normalize_scores [(9 : ℚ) / 10, 1 / 2, 1 / 2]).getD 1 0 ≤
      (normalize_scores [(9 : ℚ) / 10, 1 / 2, 1 / 2]).getD 0 0 := by
  have h := claim_C1_normalize_minmax [(9 : ℚ) / 10, 1 / 2, 1 / 2] (by simp)
  refine ⟨by simp, h.2.2.1, ?_⟩
  refine h.2.2.2 1 0 (by norm_num) (by norm_num) ?_ ?_
  · norm_num [listMax, listMin, List.foldl, min_def, max_def]
  · simp [List.get_eq_getElem]
    norm_num

/-! ### Query pipeline data model (query_pipeline.py lines 73-190) -/

/-- Qdrant payload fields read by the query pipeline; a missing dict key is
`none`. -/
structure Payload where
  id : Option String
  chunk_text_preview : Option String
  page_number : Option Nat
  section_id : Option String
  image_s3_key : Option String
  caption_text : Option String
  alt_text : Option String
  image_mime_type : Option String
  embedding_model_name : Option String

/-- Payload with every key absent (Python `{}`). -/
def Payload.empty : Payload :=
  { id := none, chunk_text_preview := none, page_number := none,
    section_id := none, image_s3_key := none, caption_text := none,
    alt_text := none, image_mime_type := none,
    embedding_model_name := none }

/-- A scored point returned by a Qdrant search (`ScoredPoint`); `payload` may
be `None`. -/
structure SearchHit where
  id : String
  score : ℚ
  payload : Option Payload

/-- Text-side ranked tuples `(hit, text_norm, 0.0, fused)` before the fused
re-sort (query_pipeline.py lines 86-102). -/
def text_ranked_raw (text_hits : List SearchHit) : List (SearchHit × ℚ × ℚ × ℚ) :=
  (text_hits.zip ((normalize_scores (text_hits.map (fun h => h.score))).zip
      ((normalize_scores (text_hits.map (fun h => h.score))).map
        (fun ts => 6 / 10 * ts + 4 / 10 * 0)))).map
    (fun x => (x.1, x.2.1, (0 : ℚ), x.2.2))

/-- Text-side ranked tuples after `sort(key=fused, reverse=True)`
(query_pipeline.py line 103); Python list.sort is stable, as is `mergeSort`. -/
def rank_text (text_hits : List SearchHit) : List (SearchHit × ℚ × ℚ × ℚ) :=
  (text_ranked_raw text_hits).mergeSort (fun a b => decide (b.2.2.2 ≤ a.2.2.2))

/-- Image-side ranked tuples `(hit, 0.0, image_norm, fused)` before the fused
re-sort (query_pipeline.py lines 87-107). -/
def image_ranked_raw (image_hits : List SearchHit) : List (SearchHit × ℚ × ℚ × ℚ) :=
  (image_hits.zip ((normalize_scores (image_hits.map (fun h => h.score))).zip
      ((normalize_scores (image_hits.map (fun h => h.score))).map
        (fun iscore => 6 / 10 * 0 + 4 / 10 * iscore)))).map
    (fun x => (x.1, (0 : ℚ), x.2.1, x.2.2))

/-- Image-side ranked tuples after the fused re-sort (line 109). -/
def rank_images (image_hits : List SearchHit) : List (SearchHit × ℚ × ℚ × ℚ) :=
  (image_ranked_raw image_hits).mergeSort (fun a b => decide (b.2.2.2 ≤ a.2.2.2))

theorem zip_map_self {α β : Type} (f : α → β) (l : List α) :
    l.zip (l.map f) = l.map (fun x => (x, f x)) := by
  induction l with
  | nil => rfl
  | cons a l ih => simp [ih]

/-- Shape of every member of the pre-sort text ranked list. -/
theorem mem_text_ranked_raw (hits : List SearchHit) (r : SearchHit × ℚ × ℚ × ℚ)
    (hr : r ∈ text_ranked_raw hits) :
    r.2.2.1 = 0 ∧ r.2.2.2 = 6 / 10 * r.2.1 + 4 / 10 * 0 ∧
      r.2.1 ∈ normalize_scores (hits.map (fun h => h.score)) := by
  unfold text_ranked_raw at hr
  rw [zip_map_self] at hr
  rcases List.mem_map.mp hr with ⟨x, hmem, heq⟩
  have hp := (List.of_mem_zip (a := x.1) (b := x.2) hmem).2
  rcases List.mem_map.mp hp with ⟨ts, hts, hpe⟩
  subst heq
  rw [← hpe]
  exact ⟨rfl, rfl, hts⟩

/-- Shape of every member of the pre-sort image ranked list. -/
theorem mem_image_ranked_raw (hits : List SearchHit) (r : SearchHit × ℚ × ℚ × ℚ)
    (hr : r ∈ image_ranked_raw hits) :
    r.2.1 = 0 ∧ r.2.2.2 = 6 / 10 * 0 + 4 / 10 * r.2.2.1 ∧
      r.2.2.1 ∈ normalize_scores (hits.map (fun h => h.score)) := by
  unfold image_ranked_raw at hr
  rw [zip_map_self] at hr
  rcases List.mem_map.mp hr with ⟨x, hmem, heq⟩
  have hp := (List.of_mem_zip (a := x.1) (b := x.2) hmem).2
  rcases List.mem_map.mp hp with ⟨ts, hts, hpe⟩
  subst heq
  rw [← hpe]
  exact ⟨rfl, rfl, hts⟩

/-- C2: score fusion — every text result carries image component 0 and fused
score exactly `0.6 * text_norm`, bounded by the text weight; every image
result carries text component 0 and fused score exactly `0.4 * image_norm`,
bounded by the image weight; at most one of the two normalized scores of any
result is non-zero. -/
theorem claim_C2_fusion_weights (text_hits image_hits : List SearchHit) :
    (∀ r ∈ rank_text text_hits,
      r.2.2.1 = 0 ∧ r.2.2.2 = 6 / 10 * r.2.1 ∧ r.2.2.2 ≤ 6 / 10 ∧
        (r.2.1 = 0 ∨ r.2.2.1 = 0)) ∧
    (∀ r ∈ rank_images image_hits,
      r.2.1 = 0 ∧ r.2.2.2 = 4 / 10 * r.2.2.1 ∧ r.2.2.2 ≤ 4 / 10 ∧
        (r.2.1 = 0 ∨ r.2.2.1 = 0)) := by
  constructor
  · intro r hr
    rw [rank_text, List.mem_mergeSort] at hr
    obtain ⟨h0, hf, hmem⟩ := mem_text_ranked_raw text_hits r hr
    have hb := normalize_scores_mem_bounds _ _ hmem
    refine ⟨h0, by rw [hf]; ring, ?_, Or.inr h0⟩
    rw [hf]
    nlinarith [hb.1, hb.2]
  · intro r hr
    rw [rank_images, List.mem_mergeSort] at hr
    obtain ⟨h0, hf, hmem⟩ := mem_image_ranked_raw image_hits r hr
    have hb := normalize_scores_mem_bounds _ _ hmem
    refine ⟨h0, by rw [hf]; ring, ?_, Or.inl h0⟩
    rw [hf]
    nlinarith [hb.1, hb.2]

theorem normalize_scores_single (s : ℚ) : normalize_scores [s] = [1] := by
  unfold normalize_scores
  rw [if_neg (by simp)]
  rw [if_pos (by simp [listMax, listMin])]
  simp

theorem rank_text_singleton (h : SearchHit) :
    rank_text [h] = [(h, 1, 0, 6 / 10 * 1 + 4 / 10 * 0)] := by
  have hraw : text_ranked_raw [h] = [(h, 1, 0, 6 / 10 * 1 + 4 / 10 * 0)] := by
    unfold text_ranked_raw
    simp [normalize_scores_single]
  rw [rank_text, hraw]
  exact List.mergeSort_of_sorted (List.pairwise_singleton _ _)

theorem rank_images_singleton (h : SearchHit) :
    rank_images [h] = [(h, 0, 1, 6 / 10 * 0 + 4 / 10 * 1)] := by
  have hraw : image_ranked_raw [h] = [(h, 0, 1, 6 / 10 * 0 + 4 / 10 * 1)] := by
    unfold image_ranked_raw
    simp [normalize_scores_single]
  rw [rank_images, hraw]
  exact List.mergeSort_of_sorted (List.pairwise_singleton _ _)

/-- A sample search hit used to instantiate the fusion theorems. -/
def sampleHit : SearchHit := { id := "t1", score := 2, payload := none }

/-- Witness for C2 at a singleton hit list in each modality. -/
theorem claim_C2_fusion_weights_witness :
    ((sampleHit, (1 : ℚ), (0 : ℚ), (6 : ℚ) / 10 * 1 + 4 / 10 * 0).2.2.1 = 0) ∧
    ((sampleHit, (1 : ℚ), (0 : ℚ), (6 : ℚ) / 10 * 1 + 4 / 10 * 0).2.2.2 ≤ 6 / 10) ∧
    ((sampleHit, (0 : ℚ), (1 : ℚ), (6 : ℚ) / 10 * 0 + 4 / 10 * 1).2.1 = 0) ∧
    ((sampleHit, (0 : ℚ), (1 : ℚ), (6 : ℚ) / 10 * 0 + 4 / 10 * 1).2.2.2 ≤ 4 / 10) := by
  have h := claim_C2_fusion_weights [sampleHit] [sampleHit]
  have h1 := h.1 (sampleHit, 1, 0, 6 / 10 * 1 + 4 / 10 * 0)
    (by rw [rank_text_singleton]; exact List.mem_singleton.mpr rfl)
  have h2 := h.2 (sampleHit, 0, 1, 6 / 10 * 0 + 4 / 10 * 1)
    (by rw [rank_images_singleton]; exact List.mem_singleton.mpr rfl)
  exact ⟨h1.1, h1.2.2.1, h2.1, h2.2.2.1⟩

theorem text_ranked_raw_length (hits : List SearchHit) :
    (text_ranked_raw hits).length = hits.length := by
  unfold text_ranked_raw
  simp [List.length_zip, normalize_scores_length]

theorem image_ranked_raw_length (hits : List SearchHit) :
    (image_ranked_raw hits).length = hits.length := by
  unfold image_ranked_raw
  simp [List.length_zip, normalize_scores_length]

set_option maxHeartbeats 1600000 in
/-- If the hits arrive ordered by raw score descending, the pre-sort text
ranked list is already ordered by fused score descending. -/
theorem text_ranked_raw_pairwise (hits : List SearchHit)
    (h : hits.Pairwise (fun a b => b.score ≤ a.score)) :
    (text_ranked_raw hits).Pairwise (fun a b => b.2.2.2 ≤ a.2.2.2) := by
  rw [List.pairwise_iff_getElem] at h ⊢
  intro i j hi hj hij
  simp only [text_ranked_raw, List.getElem_map, List.getElem_zip]
  have hlen := text_ranked_raw_length hits
  have hi' : i < hits.length := by omega
  have hj' : j < hits.length := by omega
  have hni : i < (normalize_scores (hits.map (fun x => x.score))).length := by
    rw [normalize_scores_length]; simpa using hi'
  have hnj : j < (normalize_scores (hits.map (fun x => x.score))).length := by
    rw [normalize_scores_length]; simpa using hj'
  have hsc : (hits.map (fun x => x.score)).getD j 0 ≤
      (hits.map (fun x => x.score)).getD i 0 := by
    rw [List.getD_eq_getElem _ _ (show j < (hits.map (fun x => x.score)).length by simpa using hj'),
        List.getD_eq_getElem _ _ (show i < (hits.map (fun x => x.score)).length by simpa using hi')]
    simpa using h i j hi' hj' hij
  have hmono := normalize_scores_getD_mono (hits.map (fun x => x.score)) j i
    (by simpa using hj') (by simpa using hi') hsc
  rw [List.getD_eq_getElem _ _ hnj, List.getD_eq_getElem _ _ hni] at hmono
  linarith [hmono]

set_option maxHeartbeats 1600000 in
/-- Symmetric statement for the image side. -/
theorem image_ranked_raw_pairwise (hits : List SearchHit)
    (h : hits.Pairwise (fun a b => b.score ≤ a.score)) :
    (image_ranked_raw hits).Pairwise (fun a b => b.2.2.2 ≤ a.2.2.2) := by
  rw [List.pairwise_iff_getElem] at h ⊢
  intro i j hi hj hij
  simp only [image_ranked_raw, List.getElem_map, List.getElem_zip]
  have hlen := image_ranked_raw_length hits
  have hi' : i < hits.length := by omega
  have hj' : j < hits.length := by omega
  have hni : i < (normalize_scores (hits.map (fun x => x.score))).length := by
    rw [normalize_scores_length]; simpa using hi'
  have hnj : j < (normalize_scores (hits.map (fun x => x.score))).length := by
    rw [normalize_scores_length]; simpa using hj'
  have hsc : (hits.map (fun x => x.score)).getD j 0 ≤
      (hits.map (fun x => x.score)).getD i 0 := by
    rw [List.getD_eq_getElem _ _ (show j < (hits.map (fun x => x.score)).length by simpa using hj'),
        List.getD_eq_getElem _ _ (show i < (hits.map (fun x => x.score)).length by simpa using hi')]
    simpa using h i j hi' hj' hij
  have hmono := normalize_scores_getD_mono (hits.map (fun x => x.score)) j i
    (by simpa using hj') (by simpa using hi') hsc
  rw [List.getD_eq_getElem _ _ hnj, List.getD_eq_getElem _ _ hni] at hmono
  linarith [hmono]

/-- C9: for hit lists already ordered by raw score descending (the search
contract), the re-sort by fused score is a no-op on ordering in both
modalities, because fused score is a monotone transform of the raw score
within one modality and the sort is stable. -/
theorem claim_C9_resort_is_noop (text_hits image_hits : List SearchHit)
    (ht : text_hits.Pairwise (fun a b => b.score ≤ a.score))
    (hi : image_hits.Pairwise (fun a b => b.score ≤ a.score)) :
    rank_text text_hits = text_ranked_raw text_hits ∧
    rank_images image_hits = image_ranked_raw image_hits := by
  constructor
  · exact List.mergeSort_of_sorted
      ((text_ranked_raw_pairwise text_hits ht).imp (fun hab => by simpa using hab))
  · exact List.mergeSort_of_sorted
      ((image_ranked_raw_pairwise image_hits hi).imp (fun hab => by simpa using hab))

/-- A second sample hit with a lower raw score. -/
def sampleHitLow : SearchHit := { id := "b", score := 1, payload := none }

/-- Witness for C9 at a concrete descending hit list. -/
theorem claim_C9_resort_is_noop_witness :
    ([sampleHit, sampleHitLow, sampleHitLow].Pairwise (fun a b => b.score ≤ a.score)) ∧
    rank_text [sampleHit, sampleHitLow, sampleHitLow] =
      text_ranked_raw [sampleHit, sampleHitLow, sampleHitLow] ∧
    rank_images [sampleHit, sampleHitLow, sampleHitLow] =
      image_ranked_raw [sampleHit, sampleHitLow, sampleHitLow] := by
  have hp : ([sampleHit, sampleHitLow, sampleHitLow].Pairwise
      (fun a b => b.score ≤ a.score)) := by
    norm_num [List.pairwise_cons, sampleHit, sampleHitLow]
  have h := claim_C9_resort_is_noop _ _ hp hp
  exact ⟨hp, h.1, h.2⟩

/-! ### Embedding services (text_embeddings.py, image_embeddings.py) -/

theorem sumSq_cons (a : ℚ) (v : List ℚ) : sumSq (a :: v) = a * a + sumSq v := by
  simp [sumSq]

theorem sumSq_map_div (v : List ℚ) (n : ℚ) :
    sumSq (v.map (fun x => x / n)) = sumSq v / n ^ 2 := by
  induction v with
  | nil => simp [sumSq]
  | cons a v ih =>
    rw [List.map_cons, sumSq_cons, sumSq_cons, ih, add_div]
    congr 1
    ring

/-- The text collection dimension fixed by the project setup. -/
def expected_dim : Nat := 1024

/-- Embedding of `TextEmbeddingService._normalize` (text_embeddings.py lines
27-33): raises `ValueError` on a zero euclidean norm, otherwise divides
componentwise by the norm. `normOf` stands for `np.linalg.norm`. -/
def TE_normalize (normOf : List ℚ → ℚ) (vec : List ℚ) : Except String (List ℚ) :=
  if normOf vec = 0 then Except.error "Received zero-norm embedding"
  else Except.ok (vec.map (fun x => x / normOf vec))

/-- Embedding of `TextEmbeddingService._reshape_to_expected` (lines 54-64):
pad with zeros or truncate to the expected dimension, then renormalize. -/
def reshape_to_expected (normOf : List ℚ → ℚ) (vec : List ℚ) :
    Except String (List ℚ) :=
  if vec.length = expected_dim then TE_normalize normOf vec
  else if vec.length < expected_dim then
    TE_normalize normOf (vec ++ List.replicate (expected_dim - vec.length) 0)
  else
    TE_normalize normOf (vec.take expected_dim)

/-- Embedding of `TextEmbeddingService.embed_text` (lines 119-130); the Gemini
client plus `_extract_embedding` is the function argument `client`. -/
def embed_text (normOf : List ℚ → ℚ) (client : String → Except String (List ℚ))
    (text : String) : Except String (List ℚ) := do
  if text = "" then throw "text must be non-empty"
  let vector ← client text
  let normalized ← TE_normalize normOf vector
  if normalized.length ≠ expected_dim then reshape_to_expected normOf normalized
  else pure normalized

/-- Embedding of `ImageEmbeddingService.embed_text_to_image_space`
(image_embeddings.py lines 66-86): CLIP text encoding, fatal on zero norm,
then componentwise division by the norm. -/
def embed_text_to_image_space (normOf : List ℚ → ℚ)
    (encode_text : String → List ℚ) (text : String) : Except String (List ℚ) :=
  if pyStrip text = "" then Except.error "text must be non-empty"
  else if normOf (encode_text text) = 0 then
    Except.error "Received zero-norm CLIP text embedding"
  else Except.ok ((encode_text text).map (fun x => x / normOf (encode_text text)))

/-- Embedding of `ImageEmbeddingService.embed_texts_to_image_space` (lines
88-113): batch CLIP text encoding where a zero row norm is replaced by `1.0`
before the division (`norms[norms == 0.0] = 1.0`), so no row is fatal. -/
def embed_texts_to_image_space (normOf : List ℚ → ℚ)
    (encode_texts : List String → List (List ℚ)) (texts : List String) :
    Except String (List (List ℚ)) :=
  if texts.isEmpty then Except.ok []
  else Except.ok ((encode_texts texts).map (fun row =>
    row.map (fun x => x / (if normOf row = 0 then 1 else normOf row))))

/-- C8: degenerate query embeddings are fatal — both query-embedding paths
raise on a zero-norm raw embedding rather than substituting a vector, and
every successfully returned embedding is a unit vector (sum of squares one,
in particular non-zero), so `answer_question` never searches with a zero-norm
query vector. -/
theorem claim_C8_zero_norm_fatal (normOf : List ℚ → ℚ) (vec : List ℚ)
    (encode_text : String → List ℚ) (text : String)
    (hv : (normOf vec) ^ 2 = sumSq vec ∧ 0 ≤ normOf vec)
    (he : (normOf (encode_text text)) ^ 2 = sumSq (encode_text text) ∧
      0 ≤ normOf (encode_text text)) :
    (sumSq vec = 0 →
      TE_normalize normOf vec = Except.error "Received zero-norm embedding") ∧
    (∀ w, TE_normalize normOf vec = Except.ok w → sumSq w = 1 ∧ sumSq w ≠ 0) ∧
    (pyStrip text ≠ "" → sumSq (encode_text text) = 0 →
      embed_text_to_image_space normOf encode_text text =
        Except.error "Received zero-norm CLIP text embedding") ∧
    (∀ w, embed_text_to_image_space normOf encode_text text = Except.ok w →
      sumSq w = 1 ∧ sumSq w ≠ 0) := by
  obtain ⟨hv2, _⟩ := hv
  obtain ⟨he2, _⟩ := he
  refine ⟨?_, ?_, ?_, ?_⟩
  · intro hz
    have hn : normOf vec = 0 := by
      have : (normOf vec) ^ 2 = 0 := by rw [hv2, hz]
      exact pow_eq_zero_iff (two_ne_zero) |>.mp this
    unfold TE_normalize
    rw [if_pos hn]
  · intro w hw
    unfold TE_normalize at hw
    split_ifs at hw with hn
    have hne : normOf vec ≠ 0 := hn
    have hw2 : w = vec.map (fun x => x / normOf vec) := by
      injection hw with h
      exact h.symm
    subst hw2
    rw [sumSq_map_div, ← hv2]
    constructor
    · exact div_self (pow_ne_zero 2 hne)
    · rw [div_self (pow_ne_zero 2 hne)]
      exact one_ne_zero
  · intro hnb hz
    have hn : normOf (encode_text text) = 0 := by
      have : (normOf (encode_text text)) ^ 2 = 0 := by rw [he2, hz]
      exact pow_eq_zero_iff (two_ne_zero) |>.mp this
    unfold embed_text_to_image_space
    rw [if_neg hnb, if_pos hn]
  · intro w hw
    unfold embed_text_to_image_space at hw
    split_ifs at hw with hb hn
    have hne : normOf (encode_text text) ≠ 0 := hn
    have hw2 : w = (encode_text text).map (fun x => x / normOf (encode_text text)) := by
      injection hw with h
      exact h.symm
    subst hw2
    rw [sumSq_map_div, ← he2]
    constructor
    · exact div_self (pow_ne_zero 2 hne)
    · rw [div_self (pow_ne_zero 2 hne)]
      exact one_ne_zero

/-- Witness for C8: the raw vector `[3, 4]` with norm `5` normalizes to the
unit vector `[3/5, 4/5]`. -/
theorem claim_C8_zero_norm_fatal_witness :
    (((5 : ℚ)) ^ 2 = sumSq [3, 4] ∧ (0 : ℚ) ≤ 5) ∧
    sumSq [(3 : ℚ) / 5, 4 / 5] = 1 := by
  have h := claim_C8_zero_norm_fatal (fun _ => (5 : ℚ)) [3, 4] (fun _ => [3, 4]) "q"
    (by norm_num [sumSq]) (by norm_num [sumSq])
  have hok : TE_normalize (fun _ => (5 : ℚ)) [3, 4] = Except.ok [3 / 5, 4 / 5] := by
    norm_num [TE_normalize]
  exact ⟨by norm_num [sumSq], (h.2.1 _ hok).1⟩

/-- C10: the batch cross-modal embedding never raises on a degenerate encoder
row — it substitutes norm `1.0` and returns the row unnormalized — while the
single-text path raises on a zero-norm embedding. -/
theorem claim_C10_batch_keeps_zero_rows (normOf : List ℚ → ℚ)
    (encode_texts : List String → List (List ℚ)) (encode_text : String → List ℚ)
    (texts : List String) (text : String) (row : List ℚ)
    (hrow : row ∈ encode_texts texts) (hz : normOf row = 0)
    (hez : normOf (encode_text text) = 0) (hnb : pyStrip text ≠ "") :
    (∃ rows, embed_texts_to_image_space normOf encode_texts texts = Except.ok rows ∧
      (texts ≠ [] → row ∈ rows)) ∧
    embed_text_to_image_space normOf encode_text text =
      Except.error "Received zero-norm CLIP text embedding" := by
  constructor
  · unfold embed_texts_to_image_space
    split_ifs with h0
    · exact ⟨[], rfl, fun hne => absurd (List.isEmpty_iff.mp h0) hne⟩
    · refine ⟨_, rfl, fun _ => ?_⟩
      have : row.map (fun x => x / (if normOf row = 0 then 1 else normOf row)) = row := by
        rw [if_pos hz]
        simp
      rw [← this]
      exact List.mem_map_of_mem _ hrow
  · unfold embed_text_to_image_space
    rw [if_neg hnb, if_pos hez]

/-- Witness for C10: a batch containing only the zero row is returned intact;
the single path on the same encoder output errors. -/
theorem claim_C10_batch_keeps_zero_rows_witness :
    ([(0 : ℚ), 0] ∈ [[(0 : ℚ), 0]] ∧ (0 : ℚ) = 0 ∧ pyStrip "a" ≠ "") ∧
    (∃ rows, embed_texts_to_image_space (fun _ => 0) (fun _ => [[(0 : ℚ), 0]]) ["a"] =
        Except.ok rows ∧ (["a"] ≠ [] → [(0 : ℚ), 0] ∈ rows)) ∧
    embed_text_to_image_space (fun _ => 0) (fun _ => [(0 : ℚ), 0]) "a" =
      Except.error "Received zero-norm CLIP text embedding" := by
  have h := claim_C10_batch_keeps_zero_rows (fun _ => (0 : ℚ))
    (fun _ => [[(0 : ℚ), 0]]) (fun _ => [(0 : ℚ), 0]) ["a"] "a" [(0 : ℚ), 0]
    (by simp) rfl rfl (by decide)
  exact ⟨⟨by simp, rfl, by decide⟩, h.1, h.2⟩

/-! ### QdrantRepository upserts (queries.py lines 161-172) -/

/-- Qdrant `PointStruct` as constructed by the repository upserts; the payload
dict type is a parameter. -/
structure PointStruct (P : Type) where
  id : String
  vector : List ℚ
  payload : P

/-- Embedding of `QdrantRepository.upsert_text_points` (queries.py lines
162-166). The only local validation in the source is `isinstance(points,
list)`, which is static here; every tuple is converted to a `PointStruct` and
handed to `client.upsert` for the text collection. The value returned is the
pair of arguments of that network write. -/
def upsert_text_points {P : Type} (text_collection : String)
    (points : List (String × List ℚ × P)) : String × List (PointStruct P) :=
  (text_collection,
    points.map (fun p => { id := p.1, vector := p.2.1, payload := p.2.2 }))

/-- Embedding of `QdrantRepository.upsert_image_points` (lines 168-172). -/
def upsert_image_points {P : Type} (image_collection : String)
    (points : List (String × List ℚ × P)) : String × List (PointStruct P) :=
  (image_collection,
    points.map (fun p => { id := p.1, vector := p.2.1, payload := p.2.2 }))

/-- C3 counterexample: a text point whose 3-dimensional vector mismatches the
declared text dimension 1024 is forwarded to the client write without any
failure, and `_reshape_to_expected` silently truncates an over-long vector
(the trailing `7` of a 1025-vector is dropped), contradicting the claim that
a mismatched vector length must fail before any network write and is never
silently truncated or padded. -/
theorem claim_C3_counterexample :
    upsert_text_points "text_chunks" [("p1", [(1 : ℚ), 2, 3], ())] =
      ("text_chunks", [{ id := "p1", vector := [(1 : ℚ), 2, 3], payload := () }]) ∧
    [(1 : ℚ), 2, 3].length ≠ 1024 ∧
    reshape_to_expected (fun _ => 1) (((1 : ℚ) :: List.replicate 1023 0) ++ [7]) =
      Except.ok ((1 : ℚ) :: List.replicate 1023 0) := by
  refine ⟨rfl, by norm_num, ?_⟩
  have hlen : (((1 : ℚ) :: List.replicate 1023 0) ++ [7]).length = 1025 := by
    simp only [List.length_append, List.length_cons, List.length_replicate]
    norm_num
  have htake : ((((1 : ℚ) :: List.replicate 1023 0) ++ [7]).take 1024) =
      ((1 : ℚ) :: List.replicate 1023 0) := by
    rw [show (1024 : Nat) = ((1 : ℚ) :: List.replicate 1023 0).length by
      simp only [List.length_cons, List.length_replicate], List.take_left]
  unfold reshape_to_expected expected_dim
  rw [hlen]
  rw [if_neg (by norm_num), if_neg (by norm_num), htake]
  unfold TE_normalize
  rw [if_neg (by norm_num)]
  simp only [div_one]
  rw [List.map_id']

/-- C3 amended: the repository upserts perform no dimension validation — every
batch is forwarded unchanged to the client write whatever the vector
lengths — and `_reshape_to_expected` silently zero-pads short vectors and
truncates long ones to the expected dimension 1024 before renormalizing. -/
theorem claim_C3_amended_no_dim_check {P : Type} (tc ic : String)
    (points : List (String × List ℚ × P)) (normOf : List ℚ → ℚ)
    (vec : List ℚ) :
    upsert_text_points tc points =
      (tc, points.map (fun p => { id := p.1, vector := p.2.1, payload := p.2.2 })) ∧
    upsert_image_points ic points =
      (ic, points.map (fun p => { id := p.1, vector := p.2.1, payload := p.2.2 })) ∧
    (vec.length < expected_dim →
      reshape_to_expected normOf vec =
        TE_normalize normOf (vec ++ List.replicate (expected_dim - vec.length) 0)) ∧
    (expected_dim < vec.length →
      reshape_to_expected normOf vec = TE_normalize normOf (vec.take expected_dim)) := by
  refine ⟨rfl, rfl, ?_, ?_⟩
  · intro hlt
    unfold reshape_to_expected
    rw [if_neg (by omega), if_pos hlt]
  · intro hgt
    unfold reshape_to_expected
    rw [if_neg (by omega), if_neg (by omega)]

/-- Witness for the amended C3 at a concrete short vector. -/
theorem claim_C3_amended_no_dim_check_witness :
    ([(2 : ℚ)].length < expected_dim) ∧
    reshape_to_expected (fun _ => 2) [(2 : ℚ)] =
      TE_normalize (fun _ => 2) ([(2 : ℚ)] ++ List.replicate (expected_dim - 1) 0) := by
  have h := claim_C3_amended_no_dim_check "text_chunks" "images"
    ([] : List (String × List ℚ × Unit)) (fun _ => 2) [(2 : ℚ)]
  exact ⟨by norm_num [expected_dim], h.2.2.1 (by norm_num [expected_dim])⟩

/-! ### QdrantRepository._search compatibility negotiation (queries.py 27-159) -/

/-- Keyword spelling used for the filter argument of a search call. -/
inductive FilterArg
  | query_filter
  | filter_kw
deriving DecidableEq

/-- Keyword spelling used for the query-vector argument of `query_points`. -/
inductive VectorArg
  | query_kw
  | vector_kw
deriving DecidableEq

/-- Marker set that sends the code to a retry with the `filter=` spelling:
any occurrence of `query_filter` in the lowered message (the two longer
disjuncts of the source are subsumed by the first). -/
def markerQueryFilter (msg : String) : Bool :=
  containsSub msg "query_filter" ||
  containsSub msg "unexpected keyword argument \x27query_filter\x27" ||
  containsSub msg "unknown arguments: [\x27query_filter\x27]"

/-- Marker set that sends the code to a retry with the `query_filter=`
spelling: complaints about an unknown or unexpected `filter` argument. -/
def markerFilter (msg : String) : Bool :=
  containsSub msg "unknown arguments: [\x27filter\x27]" ||
  containsSub msg "unexpected keyword argument \x27filter\x27"

/-- Injected Qdrant client handle: each optional field models
`hasattr(client, method)`, and the contained function models calling that
method with a given argument spelling. The repository passes the same
collection, vector, limit and filter values to every attempt, so the model
closes over them; only the spelling varies between attempts. For
`query_points`/`search_points` the result is the hit list after the
`getattr(resp, "points", resp)` unwrapping. -/
structure QdrantClientModel where
  searchMethod : Option (FilterArg → Except String (List SearchHit))
  queryPointsMethod : Option (VectorArg → FilterArg → Except String (List SearchHit))
  searchPointsMethod : Option (FilterArg → Except String (List SearchHit))

/-- Embedding of `QdrantRepository._search` (queries.py lines 27-159):
primary `search` branch, `query_points` fallback branch with its nested
bare-except retries, `search_points` branch, and the no-known-method
configuration error. -/
def repo_search (c : QdrantClientModel) : Except String (List SearchHit) :=
  match c.searchMethod with
  | some f =>
    match f FilterArg.query_filter with
    | Except.ok r => Except.ok r
    | Except.error e =>
      if markerQueryFilter (pyLower e) then f FilterArg.filter_kw
      else if markerFilter (pyLower e) then f FilterArg.query_filter
      else Except.error e
  | none =>
    match c.queryPointsMethod with
    | some g =>
      match g VectorArg.query_kw FilterArg.query_filter with
      | Except.ok r => Except.ok r
      | Except.error e =>
        if markerQueryFilter (pyLower e) then
          match g VectorArg.query_kw FilterArg.filter_kw with
          | Except.ok r => Except.ok r
          | Except.error _ => g VectorArg.vector_kw FilterArg.filter_kw
        else if markerFilter (pyLower e) then
          match g VectorArg.query_kw FilterArg.query_filter with
          | Except.ok r => Except.ok r
          | Except.error _ => g VectorArg.vector_kw FilterArg.query_filter
        else Except.error e
    | none =>
      match c.searchPointsMethod with
      | some h =>
        match h FilterArg.query_filter with
        | Except.ok r => Except.ok r
        | Except.error e =>
          if markerQueryFilter (pyLower e) then h FilterArg.filter_kw
          else if markerFilter (pyLower e) then h FilterArg.query_filter
          else Except.error e
      | none => Except.error "Qdrant client does not support a known search method"

/-- The `query_points` attempts of the counterexample client: the primary
spelling fails with a parameter-shape error, the retry fails with an
authentication error, and the final alternate-vector-parameter attempt
succeeds. -/
def maskClientQP : VectorArg → FilterArg → Except String (List SearchHit)
  | VectorArg.query_kw, FilterArg.query_filter =>
      Except.error "unknown arguments: [\x27query_filter\x27]"
  | VectorArg.query_kw, FilterArg.filter_kw => Except.error "auth failed"
  | VectorArg.vector_kw, _ => Except.ok [sampleHit]

/-- A client that only exposes `query_points`. -/
def maskClient : QdrantClientModel :=
  { searchMethod := none, queryPointsMethod := some maskClientQP,
    searchPointsMethod := none }

/-- C7 counterexample: on a `query_points`-only client, the retry attempt
fails with `auth failed` — not a parameter-shape error by the code's own
markers — yet `_search` masks it with a further fallback attempt and returns
that attempt's hits, contradicting part (4) of the claim, that an error that
is not a parameter-shape error propagates unchanged and is never masked or
replaced. -/
theorem claim_C7_counterexample :
    repo_search maskClient = Except.ok [sampleHit] ∧
    maskClientQP VectorArg.query_kw FilterArg.filter_kw =
      Except.error "auth failed" ∧
    markerQueryFilter (pyLower "auth failed") = false ∧
    markerFilter (pyLower "auth failed") = false := by
  refine ⟨?_, rfl, by decide, by decide⟩
  have h1 : markerQueryFilter
      (pyLower "unknown arguments: [\x27query_filter\x27]") = true := by decide
  unfold repo_search maskClient
  simp only [maskClientQP, h1, if_pos]

/-- C7 amended: the negotiation behaves as claimed on the primary `search`
branch — primary spelling first, marker-recognized parameter-shape failures
retried with the spelling alternate to the parameter complained about, other
errors propagated unchanged — and a client with no known search method is a
configuration error; but in the `query_points` fallback branch a failure of
the retry attempt (of any kind) is masked by one further attempt with the
alternate vector-parameter spelling instead of propagating. -/
theorem claim_C7_amended_negotiation (c : QdrantClientModel)
    (f : FilterArg → Except String (List SearchHit))
    (g : VectorArg → FilterArg → Except String (List SearchHit))
    (r : List SearchHit) (e : String) :
    (c.searchMethod = some f → f FilterArg.query_filter = Except.ok r →
      repo_search c = Except.ok r) ∧
    (c.searchMethod = some f → f FilterArg.query_filter = Except.error e →
      markerQueryFilter (pyLower e) = true →
      repo_search c = f FilterArg.filter_kw) ∧
    (c.searchMethod = some f → f FilterArg.query_filter = Except.error e →
      markerQueryFilter (pyLower e) = false → markerFilter (pyLower e) = true →
      repo_search c = f FilterArg.query_filter) ∧
    (c.searchMethod = some f → f FilterArg.query_filter = Except.error e →
      markerQueryFilter (pyLower e) = false → markerFilter (pyLower e) = false →
      repo_search c = Except.error e) ∧
    (c.searchMethod = none → c.queryPointsMethod = some g →
      g VectorArg.query_kw FilterArg.query_filter = Except.error e →
      markerQueryFilter (pyLower e) = true →
      repo_search c = (match g VectorArg.query_kw FilterArg.filter_kw with
        | Except.ok r2 => Except.ok r2
        | Except.error _ => g VectorArg.vector_kw FilterArg.filter_kw)) ∧
    (c.searchMethod = none → c.queryPointsMethod = none →
      c.searchPointsMethod = none →
      repo_search c =
        Except.error "Qdrant client does not support a known search method") := by
  refine ⟨?_, ?_, ?_, ?_, ?_, ?_⟩
  · intro hs hf
    unfold repo_search
    rw [hs]
    simp only [hf]
  · intro hs hf hm
    unfold repo_search
    rw [hs]
    simp only [hf, hm, if_pos]
  · intro hs hf hm1 hm2
    unfold repo_search
    rw [hs]
    simp only [hf, hm1, hm2]
    rfl
  · intro hs hf hm1 hm2
    unfold repo_search
    rw [hs]
    simp only [hf, hm1, hm2]
    rfl
  · intro hs hq hg hm
    unfold repo_search
    rw [hs, hq]
    simp only [hg, hm, if_pos]
  · intro hs hq hp
    unfold repo_search
    rw [hs, hq, hp]

/-- A client exposing no known search method. -/
def emptyClient : QdrantClientModel :=
  { searchMethod := none, queryPointsMethod := none, searchPointsMethod := none }

/-- A client whose primary `search` method succeeds immediately. -/
def okClient : QdrantClientModel :=
  { searchMethod := some (fun _ => Except.ok [sampleHit]),
    queryPointsMethod := none, searchPointsMethod := none }

/-- Witness for the amended C7: the configuration error on a method-less
client and the primary-success path on a `search`-only client. -/
theorem claim_C7_amended_negotiation_witness :
    repo_search emptyClient =
      Except.error "Qdrant client does not support a known search method" ∧
    repo_search okClient = Except.ok [sampleHit] := by
  constructor
  · exact (claim_C7_amended_negotiation emptyClient
      (fun _ => Except.ok []) (fun _ _ => Except.ok []) [] "").2.2.2.2.2 rfl rfl rfl
  · exact (claim_C7_amended_negotiation okClient
      (fun _ => Except.ok [sampleHit]) (fun _ _ => Except.ok []) [sampleHit] "").1 rfl rfl

/-! ### Payload schema (schema.py) and ingestion pipeline (ingestion_pipeline.py) -/

/-- Payload dict built by `build_text_payload` (schema.py lines 11-47); the
creation timestamp is passed in because `_now_iso` reads the wall clock. -/
structure TextPayload where
  id : String
  type : String
  source_pdf_id : String
  page_number : Nat
  section_id : Option String
  chunk_id : String
  chunk_text_preview : String
  chunk_start_char_index : Nat
  chunk_end_char_index : Nat
  language : Option String
  doc_title : Option String
  tags : List String
  modality : String
  embedding_model_name : String
  embedding_dim : Nat
  created_at : String
  version : Option String
deriving DecidableEq

/-- Embedding of `build_text_payload`. -/
def build_text_payload (now point_id source_pdf_id : String) (page_number : Nat)
    (chunk_id chunk_text_preview : String) (char_start char_end : Nat)
    (embedding_model_name : String) (doc_title : Option String)
    (tags : Option (List String)) : TextPayload :=
  { id := point_id, type := "text", source_pdf_id := source_pdf_id,
    page_number := page_number, section_id := none, chunk_id := chunk_id,
    chunk_text_preview := chunk_text_preview,
    chunk_start_char_index := char_start, chunk_end_char_index := char_end,
    language := none, doc_title := doc_title, tags := tags.getD [],
    modality := "text", embedding_model_name := embedding_model_name,
    embedding_dim := 1024, created_at := now, version := none }

/-- Payload dict built by `build_image_payload` (schema.py lines 50-89). -/
structure ImagePayload where
  id : String
  type : String
  source_pdf_id : String
  page_number : Nat
  figure_id : Option String
  image_s3_key : String
  image_mime_type : String
  width_px : Nat
  height_px : Nat
  caption_text : Option String
  alt_text : Option String
  doc_title : Option String
  tags : List String
  modality : String
  embedding_model_name : String
  embedding_dim : Nat
  created_at : String
  version : Option String
deriving DecidableEq

/-- Embedding of `build_image_payload`. -/
def build_image_payload (now point_id source_pdf_id : String)
    (page_number : Nat) (image_s3_key mime_type : String)
    (width_px height_px : Nat) (embedding_model_name : String)
    (caption_text alt_text doc_title : Option String)
    (tags : Option (List String)) : ImagePayload :=
  { id := point_id, type := "image", source_pdf_id := source_pdf_id,
    page_number := page_number, figure_id := none,
    image_s3_key := image_s3_key, image_mime_type := mime_type,
    width_px := width_px, height_px := height_px,
    caption_text := caption_text, alt_text := alt_text,
    doc_title := doc_title, tags := tags.getD [], modality := "image",
    embedding_model_name := embedding_model_name, embedding_dim := 768,
    created_at := now, version := none }

/-- Per-page text block produced by `PDFParser.parse_text`. -/
structure TextBlock where
  page_number : Nat
  text : String
  char_start : Nat
  char_end : Nat
deriving DecidableEq

/-- Per-page image block produced by `PDFParser.parse_images`. -/
structure ImageBlock where
  page_number : Nat
  image_bytes : ByteArray
  mime_type : String
  width_px : Nat
  height_px : Nat

/-- A text point tuple `(point_id, vector, payload)` as built by ingestion. -/
def TextPoint : Type := String × List ℚ × TextPayload

/-- An image point tuple `(point_id, vector, payload)` as built by
ingestion. -/
def ImagePoint : Type := String × List ℚ × ImagePayload

/-- Injected collaborators and ambient values of `IngestionPipeline`:
parser, embedding services, S3 store, Qdrant upserts, the `uuid4().hex`
supplies for text and image point ids, the `_now_iso()` timestamp, and the
text embedder model name read from the environment. -/
structure IngestDeps where
  parse_text : ByteArray → List TextBlock
  parse_images : ByteArray → List ImageBlock
  embed_texts : List String → Except String (List (List ℚ))
  embed_images : List ByteArray → Except String (List (List ℚ))
  upload_image : ByteArray → String → String → Nat → Except String String
  upsert_text : List TextPoint → Except String Unit
  upsert_image : List ImagePoint → Except String Unit
  gen_text_id : Nat → String
  gen_image_id : Nat → String
  now : String
  text_model_name : String

/-- Python slice `text[:500]` on the chunk preview. -/
def pySlice500 (s : String) : String := ⟨s.data.take 500⟩

/-- The text-point batch built in the loop of step 2 (ingestion_pipeline.py
lines 61-77): point `k` pairs block `k` with vector `k` and a fresh id. -/
def build_text_points (d : IngestDeps) (pdf_id : String)
    (doc_title : Option String) (blocks : List TextBlock)
    (vectors : List (List ℚ)) : List TextPoint :=
  (blocks.zip vectors).enum.map (fun p =>
    (d.gen_text_id p.1, p.2.2,
      build_text_payload d.now (d.gen_text_id p.1) pdf_id p.2.1.page_number
        ("p" ++ toString p.2.1.page_number) (pySlice500 p.2.1.text)
        p.2.1.char_start p.2.1.char_end d.text_model_name doc_title none))

/-- The image-point batch built in step 3 (lines 106-122). -/
def build_image_points (d : IngestDeps) (pdf_id : String)
    (doc_title : Option String) (blocks : List ImageBlock)
    (s3_keys : List String) (vectors : List (List ℚ)) : List ImagePoint :=
  ((blocks.zip (vectors.zip s3_keys)).enum).map (fun p =>
    (d.gen_image_id p.1, p.2.2.1,
      build_image_payload d.now (d.gen_image_id p.1) pdf_id
        p.2.1.page_number p.2.2.2 p.2.1.mime_type p.2.1.width_px
        p.2.1.height_px "openclip-ViT-L-14-openai" none none doc_title none))

/-- Which upserts `ingest_pdf` performed, and with which batches (step 4 sends
only non-empty batches). -/
structure IngestResult where
  text_upserted : Option (List TextPoint)
  image_upserted : Option (List ImagePoint)

/-- Embedding of `IngestionPipeline.ingest_pdf` (ingestion_pipeline.py lines
39-131). The try/except of step 2 catches any failure of the text
embedding-and-payload section; a message naming `GEMINI_API_KEY` or
`GOOGLE_API_KEY` degrades to zero text points, anything else re-raises. The
image section of step 3 and the count-mismatch raises have no handler, so
those errors abort the call before the step-4 upserts. -/
def ingest_pdf (d : IngestDeps) (pdf_bytes : ByteArray) (pdf_id : String)
    (doc_title : Option String) : Except String IngestResult := do
  if pdf_id = "" then throw "pdf_id must be a non-empty string"
  let text_blocks := d.parse_text pdf_bytes
  let image_blocks := d.parse_images pdf_bytes
  let non_empty_text_blocks := text_blocks.filter (fun b => pyStrip b.text != "")
  let text_points ← (
    if non_empty_text_blocks.isEmpty then pure []
    else
      match (do
          let vectors ← d.embed_texts (non_empty_text_blocks.map (fun b => b.text))
          if vectors.length ≠ non_empty_text_blocks.length then
            throw "Mismatch between text blocks and embeddings count"
          pure (build_text_points d pdf_id doc_title non_empty_text_blocks vectors)
        : Except String (List TextPoint)) with
      | Except.ok pts => pure pts
      | Except.error msg =>
        if containsSub msg "GEMINI_API_KEY" || containsSub msg "GOOGLE_API_KEY" then
          pure []
        else throw msg)
  let image_points ← (
    if image_blocks.isEmpty then pure []
    else do
      let s3_keys ← image_blocks.mapM (fun img =>
        d.upload_image img.image_bytes img.mime_type pdf_id img.page_number)
      let img_vectors ← d.embed_images (image_blocks.map (fun img => img.image_bytes))
      if img_vectors.length ≠ image_blocks.length then
        throw "Mismatch between image blocks and embeddings count"
      pure (build_image_points d pdf_id doc_title image_blocks s3_keys img_vectors))
  let text_up ← (
    if text_points.isEmpty then pure none
    else do
      d.upsert_text text_points
      pure (some text_points))
  let image_up ← (
    if image_points.isEmpty then pure none
    else do
      d.upsert_image image_points
      pure (some image_points))
  pure { text_upserted := text_up, image_upserted := image_up }

/-- C4: ingestion count invariant — if the text embedder returns a vector
count different from the non-blank block count, or the image embedder a
count different from the image block count, `ingest_pdf` fails with the
corresponding mismatch `RuntimeError`, whose message names no API key (so it
is distinct from a credentials failure and is re-raised by the credential
handler), and no upsert is performed: the error is returned for every
behaviour of `d.upsert_text` and `d.upsert_image`, which are never reached.
The image conjunct covers every run that reaches the image step: all text
blocks blank, text embedding succeeding with a matching count, or the
credential-degrade path. -/
theorem claim_C4_count_mismatch (d : IngestDeps) (pdf_bytes : ByteArray)
    (pdf_id : String) (doc_title : Option String)
    (vs ws ts : List (List ℚ)) (keys : List String) (msg : String) :
    (pdf_id ≠ "" →
      ((d.parse_text pdf_bytes).filter (fun b => pyStrip b.text != "")).isEmpty = false →
      d.embed_texts (((d.parse_text pdf_bytes).filter
        (fun b => pyStrip b.text != "")).map (fun b => b.text)) = Except.ok vs →
      vs.length ≠ ((d.parse_text pdf_bytes).filter
        (fun b => pyStrip b.text != "")).length →
      ingest_pdf d pdf_bytes pdf_id doc_title =
        Except.error "Mismatch between text blocks and embeddings count") ∧
    (pdf_id ≠ "" →
      (((d.parse_text pdf_bytes).filter (fun b => pyStrip b.text != "")).isEmpty = true ∨
        (d.embed_texts (((d.parse_text pdf_bytes).filter
          (fun b => pyStrip b.text != "")).map (fun b => b.text)) = Except.ok ts ∧
          ts.length = ((d.parse_text pdf_bytes).filter
            (fun b => pyStrip b.text != "")).length) ∨
        (d.embed_texts (((d.parse_text pdf_bytes).filter
          (fun b => pyStrip b.text != "")).map (fun b => b.text)) = Except.error msg ∧
          (containsSub msg "GEMINI_API_KEY" ||
            containsSub msg "GOOGLE_API_KEY") = true)) →
      (d.parse_images pdf_bytes).isEmpty = false →
      (d.parse_images pdf_bytes).mapM (fun img =>
        d.upload_image img.image_bytes img.mime_type pdf_id img.page_number) =
          Except.ok keys →
      d.embed_images ((d.parse_images pdf_bytes).map (fun img => img.image_bytes)) =
        Except.ok ws →
      ws.length ≠ (d.parse_images pdf_bytes).length →
      ingest_pdf d pdf_bytes pdf_id doc_title =
        Except.error "Mismatch between image blocks and embeddings count") ∧
    containsSub "Mismatch between text blocks and embeddings count"
      "GEMINI_API_KEY" = false ∧
    containsSub "Mismatch between text blocks and embeddings count"
      "GOOGLE_API_KEY" = false ∧
    containsSub "Mismatch between image blocks and embeddings count"
      "GEMINI_API_KEY" = false ∧
    containsSub "Mismatch between image blocks and embeddings count"
      "GOOGLE_API_KEY" = false := by
  refine ⟨?_, ?_, by decide, by decide, by decide, by decide⟩
  · intro hpid hne hemb hlen
    have hc1 : containsSub "Mismatch between text blocks and embeddings count"
        "GEMINI_API_KEY" = false := by decide
    have hc2 : containsSub "Mismatch between text blocks and embeddings count"
        "GOOGLE_API_KEY" = false := by decide
    simp only [ingest_pdf, if_neg hpid, hne, hemb]
    simp [Bind.bind, Except.bind, Pure.pure, Except.pure, Functor.map, Except.map,
      throw, throwThe, MonadExceptOf.throw, hlen, hc1, hc2]
  · intro hpid htext hine hup hemb hlen
    by_cases hfe : ((d.parse_text pdf_bytes).filter
      (fun b => pyStrip b.text != "")).isEmpty = true
    · simp only [ingest_pdf, if_neg hpid, hfe, hine, hup, hemb]
      simp [Bind.bind, Except.bind, Pure.pure, Except.pure, Functor.map, Except.map,
        throw, throwThe, MonadExceptOf.throw, hlen]
    · have hfe2 : ((d.parse_text pdf_bytes).filter
          (fun b => pyStrip b.text != "")).isEmpty = false := by
        simpa using hfe
      rcases htext with hte | ⟨hok, hoklen⟩ | ⟨herr, hkey⟩
      · exact absurd hte hfe
      · simp only [ingest_pdf, if_neg hpid, hfe2, hok, hine, hup, hemb]
        simp [Bind.bind, Except.bind, Pure.pure, Except.pure, Functor.map, Except.map,
          throw, throwThe, MonadExceptOf.throw, hoklen, hlen]
      · simp only [ingest_pdf, if_neg hpid, hfe2, herr, hine, hup, hemb]
        simp [Bind.bind, Except.bind, Pure.pure, Except.pure, Functor.map, Except.map,
          throw, throwThe, MonadExceptOf.throw, hkey, hlen]

/-- Ingestion dependencies for the C4 witness: one non-blank text block but a
text embedder that returns zero vectors. -/
def c4Block : TextBlock :=
  { page_number := 1, text := "Revenue grew.", char_start := 0, char_end := 13 }

def c4Deps : IngestDeps where
  parse_text := fun _ => [c4Block]
  parse_images := fun _ => []
  embed_texts := fun _ => Except.ok []
  embed_images := fun _ => Except.ok []
  upload_image := fun _ _ _ _ => Except.ok "k"
  upsert_text := fun _ => Except.ok ()
  upsert_image := fun _ => Except.ok ()
  gen_text_id := fun _ => "t0"
  gen_image_id := fun _ => "i0"
  now := "2026-01-01T00:00:00Z"
  text_model_name := "text-embedding-004"

/-- A 100x100 image block used by the ingestion witnesses. -/
def c5ImageBlock : ImageBlock where
  page_number := 1
  image_bytes := ByteArray.empty
  mime_type := "image/png"
  width_px := 100
  height_px := 100

/-- Ingestion dependencies whose text embedding succeeds with a matching
count while the image embedder returns zero vectors for one image block. -/
def c4ImgDeps : IngestDeps where
  parse_text := fun _ => [c4Block]
  parse_images := fun _ => [c5ImageBlock]
  embed_texts := fun _ => Except.ok [[1]]
  embed_images := fun _ => Except.ok []
  upload_image := fun _ _ _ _ => Except.ok "k"
  upsert_text := fun _ => Except.ok ()
  upsert_image := fun _ => Except.ok ()
  gen_text_id := fun _ => "t0"
  gen_image_id := fun _ => "i0"
  now := "2026-01-01T00:00:00Z"
  text_model_name := "text-embedding-004"

/-- Witness for C4: a text-count mismatch on concrete dependencies, and an
image-count mismatch on a run whose text embedding succeeds. -/
theorem claim_C4_count_mismatch_witness :
    ("doc1" ≠ "") ∧
    ((c4Deps.parse_text ByteArray.empty).filter
      (fun b => pyStrip b.text != "")).isEmpty = false ∧
    ingest_pdf c4Deps ByteArray.empty "doc1" none =
      Except.error "Mismatch between text blocks and embeddings count" ∧
    ingest_pdf c4ImgDeps ByteArray.empty "doc1" none =
      Except.error "Mismatch between image blocks and embeddings count" := by
  have h := (claim_C4_count_mismatch c4Deps ByteArray.empty "doc1" none
    [] [] [] [] "").1
  have h2 := (claim_C4_count_mismatch c4ImgDeps ByteArray.empty "doc1" none
    [] [] [[1]] ["k"] "").2.1
  refine ⟨by decide, by decide, h (by decide) (by decide) rfl (by decide), ?_⟩
  exact h2 (by decide) (Or.inr (Or.inl ⟨rfl, by decide⟩)) (by decide) rfl rfl
    (by decide)

/-- C5: graceful credential degradation — when text embedding fails with a
message naming a missing API key, `ingest_pdf` proceeds with zero text points
(`text_upserted = none`) while image upload, embedding and upsert run
unaffected; a text-embedding failure whose message names neither key
propagates as the pipeline error; and an image-embedding failure is fatal
whatever its message on every run that reaches the image step — all text
blocks blank, text embedding succeeding with a matching count, or the
credential-degrade path — so the text-credential case is the only
recoverable embedding failure. -/
theorem claim_C5_credential_degrade (d : IngestDeps) (pdf_bytes : ByteArray)
    (pdf_id : String) (doc_title : Option String) (msg emsg : String)
    (keys : List String) (ws ts : List (List ℚ)) :
    (pdf_id ≠ "" →
      ((d.parse_text pdf_bytes).filter (fun b => pyStrip b.text != "")).isEmpty = false →
      d.embed_texts (((d.parse_text pdf_bytes).filter
        (fun b => pyStrip b.text != "")).map (fun b => b.text)) = Except.error msg →
      (containsSub msg "GEMINI_API_KEY" || containsSub msg "GOOGLE_API_KEY") = true →
      (d.parse_images pdf_bytes).isEmpty = false →
      (d.parse_images pdf_bytes).mapM (fun img =>
        d.upload_image img.image_bytes img.mime_type pdf_id img.page_number) =
          Except.ok keys →
      d.embed_images ((d.parse_images pdf_bytes).map (fun img => img.image_bytes)) =
        Except.ok ws →
      ws.length = (d.parse_images pdf_bytes).length →
      (build_image_points d pdf_id doc_title (d.parse_images pdf_bytes) keys ws).isEmpty
        = false →
      d.upsert_image
        (build_image_points d pdf_id doc_title (d.parse_images pdf_bytes) keys ws) =
          Except.ok () →
      ingest_pdf d pdf_bytes pdf_id doc_title = Except.ok
        { text_upserted := none,
          image_upserted :=
            some (build_image_points d pdf_id doc_title (d.parse_images pdf_bytes)
              keys ws) }) ∧
    (pdf_id ≠ "" →
      ((d.parse_text pdf_bytes).filter (fun b => pyStrip b.text != "")).isEmpty = false →
      d.embed_texts (((d.parse_text pdf_bytes).filter
        (fun b => pyStrip b.text != "")).map (fun b => b.text)) = Except.error msg →
      containsSub msg "GEMINI_API_KEY" = false →
      containsSub msg "GOOGLE_API_KEY" = false →
      ingest_pdf d pdf_bytes pdf_id doc_title = Except.error msg) ∧
    (pdf_id ≠ "" →
      (((d.parse_text pdf_bytes).filter (fun b => pyStrip b.text != "")).isEmpty = true ∨
        (d.embed_texts (((d.parse_text pdf_bytes).filter
          (fun b => pyStrip b.text != "")).map (fun b => b.text)) = Except.ok ts ∧
          ts.length = ((d.parse_text pdf_bytes).filter
            (fun b => pyStrip b.text != "")).length) ∨
        (d.embed_texts (((d.parse_text pdf_bytes).filter
          (fun b => pyStrip b.text != "")).map (fun b => b.text)) = Except.error msg ∧
          (containsSub msg "GEMINI_API_KEY" ||
            containsSub msg "GOOGLE_API_KEY") = true)) →
      (d.parse_images pdf_bytes).isEmpty = false →
      (d.parse_images pdf_bytes).mapM (fun img =>
        d.upload_image img.image_bytes img.mime_type pdf_id img.page_number) =
          Except.ok keys →
      d.embed_images ((d.parse_images pdf_bytes).map (fun img => img.image_bytes)) =
        Except.error emsg →
      ingest_pdf d pdf_bytes pdf_id doc_title = Except.error emsg) := by
  refine ⟨?_, ?_, ?_⟩
  · intro hpid hne hemb hkey hine hup hiemb hlen hbne hiup
    simp only [ingest_pdf, if_neg hpid, hne, hemb, hkey, hine, hup, hiemb]
    simp [Bind.bind, Except.bind, Pure.pure, Except.pure, Functor.map, Except.map,
      throw, throwThe, MonadExceptOf.throw, hkey, hlen, hbne, hiup]
  · intro hpid hne hemb hk1 hk2
    simp only [ingest_pdf, if_neg hpid, hne, hemb]
    simp [Bind.bind, Except.bind, Pure.pure, Except.pure, Functor.map, Except.map,
      throw, throwThe, MonadExceptOf.throw, hk1, hk2]
  · intro hpid htext hine hup hiemb
    by_cases hfe : ((d.parse_text pdf_bytes).filter
      (fun b => pyStrip b.text != "")).isEmpty = true
    · simp only [ingest_pdf, if_neg hpid, hfe, hine, hup, hiemb]
      simp [Bind.bind, Except.bind, Pure.pure, Except.pure, Functor.map, Except.map,
        throw, throwThe, MonadExceptOf.throw]
    · have hfe2 : ((d.parse_text pdf_bytes).filter
          (fun b => pyStrip b.text != "")).isEmpty = false := by
        simpa using hfe
      rcases htext with hte | ⟨hok, hoklen⟩ | ⟨herr, hkey⟩
      · exact absurd hte hfe
      · simp only [ingest_pdf, if_neg hpid, hfe2, hok, hine, hup, hiemb]
        simp [Bind.bind, Except.bind, Pure.pure, Except.pure, Functor.map, Except.map,
          throw, throwThe, MonadExceptOf.throw, hoklen]
      · simp only [ingest_pdf, if_neg hpid, hfe2, herr, hine, hup, hiemb]
        simp [Bind.bind, Except.bind, Pure.pure, Except.pure, Functor.map, Except.map,
          throw, throwThe, MonadExceptOf.throw, hkey]

/-- Ingestion dependencies for the C5 witness: text embedding fails for a
missing API key while one image flows through. -/
def c5Deps : IngestDeps where
  parse_text := fun _ => [c4Block]
  parse_images := fun _ => [c5ImageBlock]
  embed_texts := fun _ =>
    Except.error "GEMINI_API_KEY or GOOGLE_API_KEY is missing"
  embed_images := fun _ => Except.ok [[1]]
  upload_image := fun _ _ _ _ => Except.ok "images/doc1/page_1/x.png"
  upsert_text := fun _ => Except.ok ()
  upsert_image := fun _ => Except.ok ()
  gen_text_id := fun _ => "t0"
  gen_image_id := fun _ => "i0"
  now := "2026-01-01T00:00:00Z"
  text_model_name := "text-embedding-004"

/-- Ingestion dependencies where text embedding fails for a missing API key
and image embedding then fails too: the image failure must abort. -/
def c5FatalDeps : IngestDeps where
  parse_text := fun _ => [c4Block]
  parse_images := fun _ => [c5ImageBlock]
  embed_texts := fun _ =>
    Except.error "GEMINI_API_KEY or GOOGLE_API_KEY is missing"
  embed_images := fun _ => Except.error "clip backend crashed"
  upload_image := fun _ _ _ _ => Except.ok "k"
  upsert_text := fun _ => Except.ok ()
  upsert_image := fun _ => Except.ok ()
  gen_text_id := fun _ => "t0"
  gen_image_id := fun _ => "i0"
  now := "2026-01-01T00:00:00Z"
  text_model_name := "text-embedding-004"

/-- Witness for C5: the credential failure degrades to zero text points while
the single image is embedded and upserted, and on the same degrade path an
image-embedding failure still aborts the whole ingestion. -/
theorem claim_C5_credential_degrade_witness :
    (containsSub "GEMINI_API_KEY or GOOGLE_API_KEY is missing" "GEMINI_API_KEY" ||
      containsSub "GEMINI_API_KEY or GOOGLE_API_KEY is missing" "GOOGLE_API_KEY") = true ∧
    ingest_pdf c5Deps ByteArray.empty "doc1" none = Except.ok
      { text_upserted := none,
        image_upserted := some (build_image_points c5Deps "doc1" none
          (c5Deps.parse_images ByteArray.empty) ["images/doc1/page_1/x.png"] [[1]]) } ∧
    ingest_pdf c5FatalDeps ByteArray.empty "doc1" none =
      Except.error "clip backend crashed" := by
  have h := (claim_C5_credential_degrade c5Deps ByteArray.empty "doc1" none
    "GEMINI_API_KEY or GOOGLE_API_KEY is missing" "" ["images/doc1/page_1/x.png"]
    [[1]] []).1
  have h3 := (claim_C5_credential_degrade c5FatalDeps ByteArray.empty "doc1" none
    "GEMINI_API_KEY or GOOGLE_API_KEY is missing" "clip backend crashed" ["k"]
    [] []).2.2
  refine ⟨by decide, h (by decide) (by decide) rfl (by decide) (by decide) rfl rfl
    (by decide) (by decide) rfl, ?_⟩
  exact h3 (by decide) (Or.inr (Or.inr ⟨rfl, by decide⟩)) (by decide) rfl rfl

/-! ### Query pipeline response assembly and answer generation
(query_pipeline.py lines 73-190, answer_generator.py lines 27-65) -/

/-- One entry of `context["text_chunks"]` (query_pipeline.py lines 140-154).
Score fields hold the `round(x, 6)` values; rounding is the deps function
`round6`. -/
structure CtxChunk where
  id : Option String
  chunk_text_preview : Option String
  page_number : Option Nat
  section_id : Option String
  text_score : ℚ
  image_score : ℚ
  fused_score : ℚ
  embedding_model_name : Option String
  modality : String

/-- One entry of `images_resp` (lines 112-136). -/
structure ImageRespEntry where
  id : Option String
  presigned_url : String
  ttl_seconds : Nat
  page_number : Option Nat
  caption_text : Option String
  alt_text : Option String
  image_mime_type : Option String
  s3_key : String
  image_score : ℚ
  text_score : ℚ
  fused_score : ℚ
  embedding_model_name : Option String
  modality : String

/-- The context dict of step 7 (lines 156-164). -/
structure Context where
  text_chunks : List CtxChunk
  images : List ImageRespEntry
  fusion_strategy : String
  w_text : ℚ
  w_image : ℚ
  normalized : Bool

/-- The response dict of step 9 (lines 170-189); environment-dependent meta
strings are carried from the deps. -/
structure QueryResponse where
  request_id : String
  question : String
  answer_text : String
  images : List ImageRespEntry
  context : Context
  top_k_text : Nat
  top_k_image : Nat

/-- Injected collaborators and configuration of `QueryPipeline`. -/
structure QueryDeps where
  embed_text_q : String → Except String (List ℚ)
  embed_image_space_q : String → Except String (List ℚ)
  search_text : List ℚ → Nat → Except String (List SearchHit)
  search_images : List ℚ → Nat → Except String (List SearchHit)
  generate : String → Context → Except String String
  presign : String → String
  round6 : ℚ → ℚ
  top_k_text : Nat
  top_k_image : Nat
  url_ttl : Nat
  request_id : String

/-- Step 6 (lines 112-136): presigned URLs for ranked image hits; items with a
missing or empty S3 key are skipped. -/
def build_images_resp (d : QueryDeps)
    (ranked : List (SearchHit × ℚ × ℚ × ℚ)) : List ImageRespEntry :=
  ranked.filterMap (fun r =>
    match (r.1.payload.getD Payload.empty).image_s3_key with
    | none => none
    | some s3_key =>
      if s3_key = "" then none
      else some
        { id := (r.1.payload.getD Payload.empty).id,
          presigned_url := d.presign s3_key,
          ttl_seconds := d.url_ttl,
          page_number := (r.1.payload.getD Payload.empty).page_number,
          caption_text := (r.1.payload.getD Payload.empty).caption_text,
          alt_text := (r.1.payload.getD Payload.empty).alt_text,
          image_mime_type := (r.1.payload.getD Payload.empty).image_mime_type,
          s3_key := s3_key,
          image_score := d.round6 r.2.2.1,
          text_score := d.round6 r.2.1,
          fused_score := d.round6 r.2.2.2,
          embedding_model_name := (r.1.payload.getD Payload.empty).embedding_model_name,
          modality := "image" })

/-- Step 7 (lines 139-154): context text chunks from ranked text hits. -/
def build_text_ctx (d : QueryDeps)
    (ranked : List (SearchHit × ℚ × ℚ × ℚ)) : List CtxChunk :=
  ranked.map (fun r =>
    { id := (r.1.payload.getD Payload.empty).id,
      chunk_text_preview := (r.1.payload.getD Payload.empty).chunk_text_preview,
      page_number := (r.1.payload.getD Payload.empty).page_number,
      section_id := (r.1.payload.getD Payload.empty).section_id,
      text_score := d.round6 r.2.1,
      image_score := d.round6 r.2.2.1,
      fused_score := d.round6 r.2.2.2,
      embedding_model_name := (r.1.payload.getD Payload.empty).embedding_model_name,
      modality := "text" })

/-- The assembled context of steps 5-7 for given hit lists. -/
def assemble_context (d : QueryDeps) (text_hits image_hits : List SearchHit) :
    Context :=
  { text_chunks := build_text_ctx d (rank_text text_hits),
    images := build_images_resp d (rank_images image_hits),
    fusion_strategy := "weighted_sum",
    w_text := 6 / 10,
    w_image := 4 / 10,
    normalized := true }

/-- Embedding of `QueryPipeline.answer_question` (lines 73-190). -/
def answer_question (d : QueryDeps) (question : String) :
    Except String QueryResponse := do
  if pyStrip question = "" then throw "question must be a non-empty string"
  let text_vec ← d.embed_text_q question
  let image_query_vec ← d.embed_image_space_q question
  let text_hits ← d.search_text text_vec d.top_k_text
  let image_hits ← d.search_images image_query_vec d.top_k_image
  let context := assemble_context d text_hits image_hits
  let answer_text ← d.generate question context
  pure
    { request_id := d.request_id,
      question := question,
      answer_text := answer_text,
      images := build_images_resp d (rank_images image_hits),
      context := context,
      top_k_text := d.top_k_text,
      top_k_image := d.top_k_image }

/-- Join a list of strings with a separator, as Python `sep.join`. -/
def joinSep (sep : String) : List String → String
  | [] => ""
  | [s] => s
  | s :: rest => s ++ sep ++ joinSep sep rest

/-- The extractive fallback of `GeminiAnswerGenerator.generate`
(answer_generator.py lines 58-65): strip and join the first three non-empty
chunk previews under the fixed template. -/
def gemini_extractive_fallback (context : Context) : String :=
  "Based on the retrieved context, here are the most relevant excerpts:\n\n" ++
    (let joined := joinSep "\n\n" ((context.text_chunks.take 3).filterMap (fun t =>
      if t.chunk_text_preview.getD "" = "" then none
      else some (pyStrip (t.chunk_text_preview.getD ""))))
     if joined = "" then "No relevant context found." else joined)

/-- The prompt built by `GeminiAnswerGenerator._build_prompt` (lines 27-42). -/
def build_prompt (question : String) (context : Context) : String :=
  joinSep "\n"
    (["You are a helpful assistant. Answer ONLY using the provided context.",
      "If the answer isn\x27t in the context, say you don\x27t have enough information.",
      "Be concise and cite page numbers when helpful.",
      "",
      "Question: " ++ question,
      "",
      "Context snippets:"] ++
      ((context.text_chunks.take 6).filterMap (fun t =>
        if pyStrip (t.chunk_text_preview.getD "") = "" then none
        else some ("- [p" ++
          (match t.page_number with
            | none => "None"
            | some n => toString n) ++ "] " ++
          pyStrip (t.chunk_text_preview.getD "")))))

/-- Embedding of `GeminiAnswerGenerator.generate` (lines 44-65). The LLM call
(`GenerativeModel(...).generate_content` plus the `.text` probe) is the
optional collaborator `llm`; `none` models a missing key or failed import
(`self._genai is None`), an `Except.error` result models a raised exception
(caught by the bare except), and `Except.ok t` models a returned response
whose `.text` attribute is `t`. Every failure path falls through to the
extractive fallback, so the function is total. -/
def gemini_generate (llm : Option (String → Except String (Option String)))
    (question : String) (context : Context) : String :=
  match llm with
  | none => gemini_extractive_fallback context
  | some call =>
    match call (build_prompt question context) with
    | Except.error _ => gemini_extractive_fallback context
    | Except.ok t =>
      if pyStrip (t.getD "") = "" then gemini_extractive_fallback context
      else pyStrip (t.getD "")

/-- The `_Fallback.generate` defined inside `QueryPipeline.__init__`
(query_pipeline.py lines 45-53), used when importing the Gemini generator
module fails. -/
def pipeline_fallback_generate (context : Context) : String :=
  "Answer (no LLM available). Based only on retrieved context, here are the most relevant excerpts:\n\n" ++
    (let joined := joinSep "\n\n" ((context.text_chunks.take 3).filterMap (fun t =>
      if t.chunk_text_preview.getD "" = "" then none
      else some (pyStrip (t.chunk_text_preview.getD ""))))
     if joined = "" then "No relevant context found." else joined)

/-- Successful flow of `answer_question` up to the generate call: when the
question is non-blank and both embeddings and both searches succeed, the
response is assembled around whatever the generator returns. -/
theorem answer_question_ok (d : QueryDeps) (question : String)
    (tv iv : List ℚ) (th ih : List SearchHit) (a : String)
    (hq : pyStrip question ≠ "")
    (h1 : d.embed_text_q question = Except.ok tv)
    (h2 : d.embed_image_space_q question = Except.ok iv)
    (h3 : d.search_text tv d.top_k_text = Except.ok th)
    (h4 : d.search_images iv d.top_k_image = Except.ok ih)
    (hg : d.generate question (assemble_context d th ih) = Except.ok a) :
    answer_question d question = Except.ok
      { request_id := d.request_id, question := question, answer_text := a,
        images := build_images_resp d (rank_images ih),
        context := assemble_context d th ih,
        top_k_text := d.top_k_text, top_k_image := d.top_k_image } := by
  simp [answer_question, if_neg hq, Bind.bind, Except.bind, Pure.pure,
    Except.pure, h1, h2, h3, h4, hg]

/-- A failing LLM call makes `gemini_generate` return the extractive
fallback. -/
theorem gemini_generate_error (call : String → Except String (Option String))
    (question : String) (context : Context) (e : String)
    (hcall : call (build_prompt question context) = Except.error e) :
    gemini_generate (some call) question context =
      gemini_extractive_fallback context := by
  simp [gemini_generate, hcall]

/-- C6: answer-generation failures never propagate out of `answer_question` —
for every question that survives validation, embedding and search, a
generator whose LLM call raises, a generator with no LLM at all, and the
import-failure `_Fallback` generator each still produce an `Except.ok`
response whose `answer_text` is the respective templated extractive fallback
over the top text-chunk previews. -/
theorem claim_C6_generation_never_raises (d : QueryDeps) (question : String)
    (call : String → Except String (Option String))
    (tv iv : List ℚ) (th ih : List SearchHit) (e : String)
    (hq : pyStrip question ≠ "")
    (h1 : d.embed_text_q question = Except.ok tv)
    (h2 : d.embed_image_space_q question = Except.ok iv)
    (h3 : d.search_text tv d.top_k_text = Except.ok th)
    (h4 : d.search_images iv d.top_k_image = Except.ok ih) :
    ((d.generate = fun q c => Except.ok (gemini_generate (some call) q c)) →
      call (build_prompt question (assemble_context d th ih)) = Except.error e →
      ∃ resp, answer_question d question = Except.ok resp ∧
        resp.answer_text = gemini_extractive_fallback (assemble_context d th ih)) ∧
    ((d.generate = fun q c => Except.ok (gemini_generate none q c)) →
      ∃ resp, answer_question d question = Except.ok resp ∧
        resp.answer_text = gemini_extractive_fallback (assemble_context d th ih)) ∧
    ((d.generate = fun q c => Except.ok (pipeline_fallback_generate c)) →
      ∃ resp, answer_question d question = Except.ok resp ∧
        resp.answer_text = pipeline_fallback_generate (assemble_context d th ih)) := by
  refine ⟨?_, ?_, ?_⟩
  · intro hgen hcall
    refine ⟨_, answer_question_ok d question tv iv th ih _ hq h1 h2 h3 h4
      (by rw [hgen]), ?_⟩
    exact gemini_generate_error call question (assemble_context d th ih) e hcall
  · intro hgen
    refine ⟨_, answer_question_ok d question tv iv th ih _ hq h1 h2 h3 h4
      (by rw [hgen]), ?_⟩
    rfl
  · intro hgen
    exact ⟨_, answer_question_ok d question tv iv th ih
      (pipeline_fallback_generate (assemble_context d th ih)) hq h1 h2 h3 h4
      (by rw [hgen]), rfl⟩

/-- Payload of the C6 witness hit. -/
def c6Payload : Payload where
  id := some "h1"
  chunk_text_preview := some "Revenue grew 12%."
  page_number := some 1
  section_id := none
  image_s3_key := none
  caption_text := none
  alt_text := none
  image_mime_type := none
  embedding_model_name := none

/-- The C6 witness search hit. -/
def c6Hit : SearchHit :=
  { id := "h1", score := 1, payload := some c6Payload }

/-- Query dependencies for the C6 witness: every collaborator succeeds except
the LLM call, which always raises. -/
def c6Deps : QueryDeps where
  embed_text_q := fun _ => Except.ok [1]
  embed_image_space_q := fun _ => Except.ok [1]
  search_text := fun _ _ => Except.ok [c6Hit]
  search_images := fun _ _ => Except.ok []
  generate := fun q c =>
    Except.ok (gemini_generate (some (fun _ => Except.error "llm down")) q c)
  presign := fun k => k
  round6 := fun x => x
  top_k_text := 5
  top_k_image := 5
  url_ttl := 900
  request_id := "req1"

/-- Witness for C6 at the concrete failing-LLM dependencies. -/
theorem claim_C6_generation_never_raises_witness :
    pyStrip "What was revenue growth?" ≠ "" ∧
    ∃ resp, answer_question c6Deps "What was revenue growth?" = Except.ok resp ∧
      resp.answer_text = gemini_extractive_fallback
        (assemble_context c6Deps [c6Hit] []) := by
  have h := (claim_C6_generation_never_raises c6Deps "What was revenue growth?"
    (fun _ => Except.error "llm down") [1] [1] [c6Hit] [] "llm down"
    (by decide) rfl rfl rfl rfl).1
  exact ⟨by decide, h rfl rfl⟩
